import Mathlib

/-!
# libmodbus: the public header `modbus/modbus.h`

A shallow embedding of the constants declared by `src/modbus/modbus.h`
(frame geometry, quantity limits, function codes, error values) and of the
utility functions the header declares, followed by theorems relating them to
the behaviour the specification describes.

Conventions:
* every `#define` of the header is a `def` with the same name and the same
  literal (hexadecimal literals are kept hexadecimal);
* lengths, quantities and function codes are `Nat`; error values are `Int`
  because the header defines them as negated literals;
* a C array reached through a pointer (`uint8_t *dest`) is a total map from
  index to cell content, `Nat → Nat`.
-/

namespace Modbus

/-! ## Frame geometry (modbus.h, lines 56-91) -/

/-- Value of `#define MODBUS_TCP_DEFAULT_PORT 502`. -/
def MODBUS_TCP_DEFAULT_PORT : Nat := 502
/-- Value of `#define MODBUS_BROADCAST_ADDRESS 255`. -/
def MODBUS_BROADCAST_ADDRESS : Nat := 255

/-- Value of `#define HEADER_LENGTH_RTU 1` (the slave index). -/
def HEADER_LENGTH_RTU : Nat := 1
/-- Value of `#define PRESET_QUERY_LENGTH_RTU 6`. -/
def PRESET_QUERY_LENGTH_RTU : Nat := 6
/-- Value of `#define PRESET_RESPONSE_LENGTH_RTU 2`. -/
def PRESET_RESPONSE_LENGTH_RTU : Nat := 2

/-- Value of `#define HEADER_LENGTH_TCP 7`. -/
def HEADER_LENGTH_TCP : Nat := 7
/-- Value of `#define PRESET_QUERY_LENGTH_TCP 12`. -/
def PRESET_QUERY_LENGTH_TCP : Nat := 12
/-- Value of `#define PRESET_RESPONSE_LENGTH_TCP 8`. -/
def PRESET_RESPONSE_LENGTH_TCP : Nat := 8

/-- Value of `#define CHECKSUM_LENGTH_RTU 2`. -/
def CHECKSUM_LENGTH_RTU : Nat := 2
/-- Value of `#define CHECKSUM_LENGTH_TCP 0`. -/
def CHECKSUM_LENGTH_TCP : Nat := 0

/-- Value of `#define MIN_QUERY_LENGTH 12`. -/
def MIN_QUERY_LENGTH : Nat := 12

/-- Value of `#define MAX_PDU_LENGTH 253`. -/
def MAX_PDU_LENGTH : Nat := 253
/-- Value of `#define MAX_ADU_LENGTH_RTU 256`. -/
def MAX_ADU_LENGTH_RTU : Nat := 256
/-- Value of `#define MAX_ADU_LENGTH_TCP 260`. -/
def MAX_ADU_LENGTH_TCP : Nat := 260

/-- Value of `#define MAX_MESSAGE_LENGTH 260` (kept for compatibility). -/
def MAX_MESSAGE_LENGTH : Nat := 260

/-- Value of `#define EXCEPTION_RESPONSE_LENGTH_RTU 5`. -/
def EXCEPTION_RESPONSE_LENGTH_RTU : Nat := 5

/-! ## Quantity limits (modbus.h, lines 93-103) -/

/-- Value of `#define MAX_STATUS 2000`. -/
def MAX_STATUS : Nat := 2000
/-- Value of `#define MAX_REGISTERS 125`. -/
def MAX_REGISTERS : Nat := 125
/-- Value of `#define REPORT_SLAVE_ID_LENGTH 75`. -/
def REPORT_SLAVE_ID_LENGTH : Nat := 75

/-! ## Booleans (modbus.h, lines 109-123) -/

/-- Value of `#define FALSE 0`. -/
def FALSE : Nat := 0
/-- Value of `#define TRUE 1`. -/
def TRUE : Nat := 1
/-- Value of `#define OFF 0`. -/
def OFF : Nat := 0
/-- Value of `#define ON 1`. -/
def ON : Nat := 1

/-! ## Function codes (modbus.h, lines 125-216) -/

/-- Value of `#define FC_READ_COIL_STATUS 0x01`. -/
def FC_READ_COIL_STATUS : Nat := 0x01
/-- Value of `#define FC_READ_INPUT_STATUS 0x02`. -/
def FC_READ_INPUT_STATUS : Nat := 0x02
/-- Value of `#define FC_READ_HOLDING_REGISTERS 0x03`. -/
def FC_READ_HOLDING_REGISTERS : Nat := 0x03
/-- Value of `#define FC_READ_INPUT_REGISTERS 0x04`. -/
def FC_READ_INPUT_REGISTERS : Nat := 0x04
/-- Value of `#define FC_FORCE_SINGLE_COIL 0x05`. -/
def FC_FORCE_SINGLE_COIL : Nat := 0x05
/-- Value of `#define FC_PRESET_SINGLE_REGISTER 0x06`. -/
def FC_PRESET_SINGLE_REGISTER : Nat := 0x06
/-- Value of `#define FC_READ_EXCEPTION_STATUS 0x07`. -/
def FC_READ_EXCEPTION_STATUS : Nat := 0x07
/-- Value of `#define FC_FORCE_MULTIPLE_COILS 0x0F`. -/
def FC_FORCE_MULTIPLE_COILS : Nat := 0x0F
/-- Value of `#define FC_PRESET_MULTIPLE_REGISTERS 0x10`. -/
def FC_PRESET_MULTIPLE_REGISTERS : Nat := 0x10
/-- Value of `#define FC_REPORT_SLAVE_ID 0x11`. -/
def FC_REPORT_SLAVE_ID : Nat := 0x11

/-- The `FC_*` macros of the header, in the order they are defined. -/
def function_codes : List Nat :=
  [FC_READ_COIL_STATUS, FC_READ_INPUT_STATUS, FC_READ_HOLDING_REGISTERS,
   FC_READ_INPUT_REGISTERS, FC_FORCE_SINGLE_COIL, FC_PRESET_SINGLE_REGISTER,
   FC_READ_EXCEPTION_STATUS, FC_FORCE_MULTIPLE_COILS,
   FC_PRESET_MULTIPLE_REGISTERS, FC_REPORT_SLAVE_ID]

/-! ## Error values (modbus.h, lines 218-244) -/

/-- Value of `#define ILLEGAL_FUNCTION -0x01`. -/
def ILLEGAL_FUNCTION : Int := -0x01
/-- Value of `#define ILLEGAL_DATA_ADDRESS -0x02`. -/
def ILLEGAL_DATA_ADDRESS : Int := -0x02
/-- Value of `#define ILLEGAL_DATA_VALUE -0x03`. -/
def ILLEGAL_DATA_VALUE : Int := -0x03
/-- Value of `#define SLAVE_DEVICE_FAILURE -0x04`. -/
def SLAVE_DEVICE_FAILURE : Int := -0x04
/-- Value of `#define SERVER_FAILURE -0x04`. -/
def SERVER_FAILURE : Int := -0x04
/-- Value of `#define ACKNOWLEDGE -0x05`. -/
def ACKNOWLEDGE : Int := -0x05
/-- Value of `#define SLAVE_DEVICE_BUSY -0x06`. -/
def SLAVE_DEVICE_BUSY : Int := -0x06
/-- Value of `#define SERVER_BUSY -0x06`. -/
def SERVER_BUSY : Int := -0x06
/-- Value of `#define NEGATIVE_ACKNOWLEDGE -0x07`. -/
def NEGATIVE_ACKNOWLEDGE : Int := -0x07
/-- Value of `#define MEMORY_PARITY_ERROR -0x08`. -/
def MEMORY_PARITY_ERROR : Int := -0x08
/-- Value of `#define GATEWAY_PROBLEM_PATH -0x0A`. -/
def GATEWAY_PROBLEM_PATH : Int := -0x0A
/-- Value of `#define GATEWAY_PROBLEM_TARGET -0x0B`. -/
def GATEWAY_PROBLEM_TARGET : Int := -0x0B

/-- Value of `#define INVALID_DATA -0x10`. -/
def INVALID_DATA : Int := -0x10
/-- Value of `#define INVALID_CRC -0x11`. -/
def INVALID_CRC : Int := -0x11
/-- Value of `#define INVALID_EXCEPTION_CODE -0x12`. -/
def INVALID_EXCEPTION_CODE : Int := -0x12

/-- Value of `#define SELECT_TIMEOUT -0x13`. -/
def SELECT_TIMEOUT : Int := -0x13
/-- Value of `#define SELECT_FAILURE -0x14`. -/
def SELECT_FAILURE : Int := -0x14
/-- Value of `#define SOCKET_FAILURE -0x15`. -/
def SOCKET_FAILURE : Int := -0x15
/-- Value of `#define CONNECTION_CLOSED -0x16`. -/
def CONNECTION_CLOSED : Int := -0x16
/-- Value of `#define MB_EXCEPTION -0x17`. -/
def MB_EXCEPTION : Int := -0x17

/-- Value of `#define MSG_LENGTH_UNDEFINED -1` (internal, not an error value). -/
def MSG_LENGTH_UNDEFINED : Int := -1

/-- The names of the twenty error macros of lines 218-241, one constructor per
`#define`, in the order of the header. -/
inductive ErrorName where
  | illegalFunction
  | illegalDataAddress
  | illegalDataValue
  | slaveDeviceFailure
  | serverFailure
  | acknowledge
  | slaveDeviceBusy
  | serverBusy
  | negativeAcknowledge
  | memoryParityError
  | gatewayProblemPath
  | gatewayProblemTarget
  | invalidData
  | invalidCrc
  | invalidExceptionCode
  | selectTimeout
  | selectFailure
  | socketFailure
  | connectionClosed
  | mbException
  deriving DecidableEq, Repr

/-- The three groups the header lays the error macros out in: the block under
`/* Protocol exceptions */`, the block under `/* Local */`, and the block that
follows the blank line after it (transport failures). -/
inductive ErrorClass where
  | protocol
  | localFraming
  | transport
  deriving DecidableEq, Repr

/-- The value each error macro expands to. -/
def ErrorName.value : ErrorName → Int
  | .illegalFunction => ILLEGAL_FUNCTION
  | .illegalDataAddress => ILLEGAL_DATA_ADDRESS
  | .illegalDataValue => ILLEGAL_DATA_VALUE
  | .slaveDeviceFailure => SLAVE_DEVICE_FAILURE
  | .serverFailure => SERVER_FAILURE
  | .acknowledge => ACKNOWLEDGE
  | .slaveDeviceBusy => SLAVE_DEVICE_BUSY
  | .serverBusy => SERVER_BUSY
  | .negativeAcknowledge => NEGATIVE_ACKNOWLEDGE
  | .memoryParityError => MEMORY_PARITY_ERROR
  | .gatewayProblemPath => GATEWAY_PROBLEM_PATH
  | .gatewayProblemTarget => GATEWAY_PROBLEM_TARGET
  | .invalidData => INVALID_DATA
  | .invalidCrc => INVALID_CRC
  | .invalidExceptionCode => INVALID_EXCEPTION_CODE
  | .selectTimeout => SELECT_TIMEOUT
  | .selectFailure => SELECT_FAILURE
  | .socketFailure => SOCKET_FAILURE
  | .connectionClosed => CONNECTION_CLOSED
  | .mbException => MB_EXCEPTION

/-- The group of the header each error macro is defined in. -/
def ErrorName.errorClass : ErrorName → ErrorClass
  | .illegalFunction | .illegalDataAddress | .illegalDataValue
  | .slaveDeviceFailure | .serverFailure | .acknowledge | .slaveDeviceBusy
  | .serverBusy | .negativeAcknowledge | .memoryParityError
  | .gatewayProblemPath | .gatewayProblemTarget => .protocol
  | .invalidData | .invalidCrc | .invalidExceptionCode => .localFraming
  | .selectTimeout | .selectFailure | .socketFailure | .connectionClosed
  | .mbException => .transport

/-- The two pairs of macros the header defines with one value on purpose
(`SLAVE_DEVICE_FAILURE`/`SERVER_FAILURE`, `SLAVE_DEVICE_BUSY`/`SERVER_BUSY`),
in either order. -/
def ErrorName.isAliasPair (a b : ErrorName) : Bool :=
  match a, b with
  | .slaveDeviceFailure, .serverFailure => true
  | .serverFailure, .slaveDeviceFailure => true
  | .slaveDeviceBusy, .serverBusy => true
  | .serverBusy, .slaveDeviceBusy => true
  | _, _ => false

/-! ## Utility functions (modbus.h, lines 618-677)

The header declares these functions; their bodies live in `modbus.c`, which is
not part of the sources at hand. Each is modelled from the header's
documentation comment and the specification's packing rules.

Arrays are reached through pointers, so a table is a total map from index to
cell (`Nat → Nat`); an `int` parameter that is an index or a count is a `Nat`.
-/

/-- One assignment `dest[index] = cell` to a C array: the cell at `index` takes
the new content, every other cell keeps its own. -/
def store (dest : Nat → Nat) (index cell : Nat) : Nat → Nat :=
  fun j => if j = index then cell else dest j

/-- Modelled from the spec: the cell a coil table holds for bit `i` of `value`
(spec 4.2, bit 0 being the LSB), `ON` when the bit is set and `OFF` when it is
clear; the test is the mask `value & (1 << i)`. It is the step shared by the
absent bodies of `set_bits_from_byte` and `set_bits_from_bytes`. -/
def bit_status (value i : Nat) : Nat :=
  if value &&& (1 <<< i) ≠ 0 then ON else OFF

/-- Modelled from the spec: the body of `set_bits_from_byte` (declared at
modbus.h:632, defined in the absent `modbus.c`). Header: "Sets many input/coil
status from a single byte value (all 8 bits of the byte value are set)";
spec 4.2: bit `i` of the logical sequence is bit `i mod 8` of the byte, bit 0
being the LSB. The eight cells `dest[address] .. dest[address + 7]` are written
in increasing order. -/
def set_bits_from_byte (dest : Nat → Nat) (address : Nat) (value : Nat) : Nat → Nat :=
  (List.range 8).foldl (fun d i => store d (address + i) (bit_status value i)) dest

/-- Modelled from the spec: the body of `set_bits_from_bytes` (declared at
modbus.h:645, defined in the absent `modbus.c`). Header: "Sets many input/coil
status from a table of bytes (only the bits between address and address +
nb_bits are set)"; spec 4.2: bit `i` of the logical sequence occupies bit
`i mod 8` of byte `i / 8`. The cells are written in increasing order of `i`. -/
def set_bits_from_bytes (dest : Nat → Nat) (address nb_bits : Nat)
    (tab_byte : Nat → Nat) : Nat → Nat :=
  (List.range nb_bits).foldl
    (fun d i => store d (address + i) (bit_status (tab_byte (i / 8)) (i % 8))) dest

/-- Modelled from the spec: the body of `get_byte_from_bits` (declared at
modbus.h:658, defined in the absent `modbus.c`). Header: "Gets the byte value
from many input/coil status. To obtain a full byte, set nb_bits to 8"; spec
4.2: cell `i` lands in bit `i` of the byte, unused high bits stay zero. The
accumulator is the `uint8_t` the header declares as return type, hence the
reduction modulo 256 after each step. -/
def get_byte_from_bits (src : Nat → Nat) (address nb_bits : Nat) : Nat :=
  (List.range nb_bits).foldl
    (fun value i => (value ||| (src (address + i) <<< i)) % 256) 0

/-! ### Floats

A C `float` is handled through its 32-bit pattern only: the two functions move
the pattern between a `float` object and two 16-bit registers, so a float is
the `Nat` below `2 ^ 32` that holds its IEEE-754 single-precision encoding. -/

/-- Modelled from the spec: the sign bit (bit 31) of an IEEE-754
single-precision pattern, the C type `float` of the header's prototypes. -/
def f32_sign (bits : Nat) : Nat := (bits >>> 31) % 2
/-- Modelled from the spec: the biased exponent (bits 23..30) of an IEEE-754
single-precision pattern. -/
def f32_exponent (bits : Nat) : Nat := (bits >>> 23) % 256
/-- Modelled from the spec: the fraction field (bits 0..22) of an IEEE-754
single-precision pattern. -/
def f32_fraction (bits : Nat) : Nat := bits % 2 ^ 23

/-- Modelled from the spec: an IEEE-754 single-precision pattern encodes a
finite number (neither an infinity nor a NaN) exactly when its exponent field
is not all ones. -/
def f32_is_finite (bits : Nat) : Bool := f32_exponent bits != 255

/-- Modelled from the spec: the number an IEEE-754 single-precision pattern
stands for (the C type `float` of the header's prototypes; meaningful for
finite patterns). Subnormals have exponent field 0. -/
def f32_value (bits : Nat) : ℚ :=
  let sign : ℚ := if f32_sign bits = 1 then -1 else 1
  if f32_exponent bits = 0 then
    sign * ((f32_fraction bits : ℚ) / 2 ^ 23) * (2 : ℚ) ^ (-126 : Int)
  else
    sign * (1 + (f32_fraction bits : ℚ) / 2 ^ 23) *
      (2 : ℚ) ^ ((f32_exponent bits : Int) - 127)

/-- Modelled from the spec: the body of `modbus_write_float` (declared at
modbus.h:677, defined in the absent `modbus.c`). Spec 4.2: the registers
satisfy `bits = (r[1] << 16) | r[0]`, least-significant word first; each
register is a `uint16_t`, so `dest[0]` takes the low sixteen bits of the
pattern and `dest[1]` the high sixteen. -/
def modbus_write_float (real : Nat) (dest : Nat → Nat) : Nat → Nat :=
  store (store dest 0 (real % 2 ^ 16)) 1 ((real >>> 16) % 2 ^ 16)

/-- Modelled from the spec: the body of `modbus_read_float` (declared at
modbus.h:668, defined in the absent `modbus.c`). Spec 4.2:
`bits = (r[1] << 16) | r[0]`, a 32-bit quantity. -/
def modbus_read_float (src : Nat → Nat) : Nat :=
  ((src 1 <<< 16) ||| src 0) % 2 ^ 32

/-! ## Client read operations (modbus.h, lines 312-369)

The four read entry points are declared by the header and defined in the
absent `modbus.c`. -/

/-- Modelled from the spec: the client engine of section 4.5 for a read
function, whose body is in the absent `modbus.c`. Step (a) validates the
arguments: a read addressed to the broadcast slave is rejected locally as
`INVALID_DATA` (4.5, Broadcast), and so is a quantity outside `1..max_nb`
(4.2, Quantity bounds). Steps (b)-(i), building, sending, receiving and
parsing the frames, are the parameter `exchange`: the status they end with,
negative for an error. Step (j) returns the error, or the count of values
delivered, which for a successful read equals the quantity asked for (8,
invariant 3). -/
def client_read (max_nb : Nat) (slave : Nat) (nb : Int) (exchange : Int) : Int :=
  if slave = MODBUS_BROADCAST_ADDRESS then INVALID_DATA
  else if nb < 1 ∨ (max_nb : Int) < nb then INVALID_DATA
  else if exchange < 0 then exchange
  else nb

/-- Modelled from the spec: `read_coil_status` (modbus.h:324), the read engine
with function code `FC_READ_COIL_STATUS` and quantity limit `MAX_STATUS`. -/
def read_coil_status (slave : Nat) (start_addr nb : Int) (exchange : Nat → Int → Int → Int) : Int :=
  client_read MAX_STATUS slave nb (exchange FC_READ_COIL_STATUS start_addr nb)

/-- Modelled from the spec: `read_input_status` (modbus.h:338), the read engine
with function code `FC_READ_INPUT_STATUS` and quantity limit `MAX_STATUS`. -/
def read_input_status (slave : Nat) (start_addr nb : Int) (exchange : Nat → Int → Int → Int) : Int :=
  client_read MAX_STATUS slave nb (exchange FC_READ_INPUT_STATUS start_addr nb)

/-- Modelled from the spec: `read_holding_registers` (modbus.h:353), the read
engine with function code `FC_READ_HOLDING_REGISTERS` and quantity limit
`MAX_REGISTERS`. -/
def read_holding_registers (slave : Nat) (start_addr nb : Int) (exchange : Nat → Int → Int → Int) : Int :=
  client_read MAX_REGISTERS slave nb (exchange FC_READ_HOLDING_REGISTERS start_addr nb)

/-- Modelled from the spec: `read_input_registers` (modbus.h:368), the read
engine with function code `FC_READ_INPUT_REGISTERS` and quantity limit
`MAX_REGISTERS`. -/
def read_input_registers (slave : Nat) (start_addr nb : Int) (exchange : Nat → Int → Int → Int) : Int :=
  client_read MAX_REGISTERS slave nb (exchange FC_READ_INPUT_REGISTERS start_addr nb)

/-! ## RTU framing of an exception response -/

/-- Modelled from the spec: one byte folded into the CRC of section 4.1
(reflected polynomial `0xA001`), the CRC routine being in the absent
`modbus.c`: the byte is xored into the low half, then eight shift steps each
xor the polynomial in when the bit shifted out is set. -/
def crc16_byte (crc byte : Nat) : Nat :=
  (List.range 8).foldl
    (fun c _ => if c % 2 = 1 then (c >>> 1) ^^^ 0xA001 else c >>> 1) (crc ^^^ byte)

/-- Modelled from the spec: the 16-bit Modbus CRC of section 4.1 over a byte
sequence: initial value `0xFFFF`, no final xor. -/
def crc16 (bytes : List Nat) : Nat := bytes.foldl crc16_byte 0xFFFF

/-- Modelled from the spec: the exception PDU of section 4.3,
`[fc | 0x80][code]`. -/
def exception_pdu (fc code : Nat) : List Nat := [fc ||| 0x80, code]

/-- Modelled from the spec: the RTU framer's wrap of section 4.3 (in the absent
`modbus.c`): the slave byte, the PDU, then the CRC of slave and PDU, low byte
first. -/
def rtu_wrap (slave : Nat) (pdu : List Nat) : List Nat :=
  let body := slave :: pdu
  body ++ [crc16 body % 256, crc16 body / 256]

/-- Modelled from the spec: the RTU exception response to a query with function
code `fc`, carrying exception code `code`. -/
def rtu_exception_response (slave fc code : Nat) : List Nat :=
  rtu_wrap slave (exception_pdu fc code)

/-! ## Auxiliary lemmas -/

theorem store_same (d : Nat → Nat) (i c : Nat) : store d i c i = c := by
  simp [store]

theorem store_other (d : Nat → Nat) (i c j : Nat) (h : j ≠ i) : store d i c j = d j := by
  simp [store, h]

theorem foldl_store_range (f : Nat → Nat) (dest : Nat → Nat) (a n j : Nat) :
    ((List.range n).foldl (fun d i => store d (a + i) (f i)) dest) j =
      if a ≤ j ∧ j < a + n then f (j - a) else dest j := by
  induction n with
  | zero =>
    have : ¬ (a ≤ j ∧ j < a + 0) := by omega
    rw [if_neg this]
    rfl
  | succ n ih =>
    rw [List.range_succ, List.foldl_append, List.foldl_cons, List.foldl_nil]
    by_cases hj : j = a + n
    · subst hj
      rw [store_same]
      have : a ≤ a + n ∧ a + n < a + (n + 1) := by omega
      rw [if_pos this]
      congr 1
      omega
    · rw [store_other _ _ _ _ hj, ih]
      by_cases h1 : a ≤ j ∧ j < a + n
      · have h2 : a ≤ j ∧ j < a + (n + 1) := by omega
        rw [if_pos h1, if_pos h2]
      · have h2 : ¬ (a ≤ j ∧ j < a + (n + 1)) := by omega
        rw [if_neg h1, if_neg h2]

theorem bit_status_eq_div_mod (value i : Nat) : bit_status value i = value / 2 ^ i % 2 := by
  unfold bit_status
  rw [Nat.one_shiftLeft, Nat.and_two_pow, ← Nat.toNat_testBit]
  cases value.testBit i <;> simp [ON, OFF]

theorem bit_status_eq_testBit (value i : Nat) :
    bit_status value i = if value.testBit i then ON else OFF := by
  rw [bit_status_eq_div_mod, ← Nat.toNat_testBit]
  cases value.testBit i <;> simp [ON, OFF]

theorem get_byte_from_bits_succ (src : Nat → Nat) (a n : Nat) :
    get_byte_from_bits src a (n + 1) =
      (get_byte_from_bits src a n ||| (src (a + n) <<< n)) % 256 := by
  unfold get_byte_from_bits
  rw [List.range_succ, List.foldl_append, List.foldl_cons, List.foldl_nil]

theorem get_byte_from_bits_of_bits (src : Nat → Nat) (a v n : Nat) (hn : n ≤ 8)
    (h : ∀ i, i < n → src (a + i) = v / 2 ^ i % 2) :
    get_byte_from_bits src a n = v % 2 ^ n := by
  induction n with
  | zero => simp [get_byte_from_bits, Nat.mod_one]
  | succ n ih =>
    rw [get_byte_from_bits_succ, ih (by omega) (fun i hi => h i (by omega)),
      h n (by omega), Nat.shiftLeft_eq, Nat.lor_comm, Nat.mul_comm,
      ← Nat.mul_add_lt_is_or (Nat.mod_lt _ (Nat.two_pow_pos n)), Nat.add_comm,
      ← Nat.mod_pow_succ]
    apply Nat.mod_eq_of_lt
    have h1 : v % 2 ^ (n + 1) < 2 ^ (n + 1) := Nat.mod_lt _ (Nat.two_pow_pos _)
    have h2 : 2 ^ (n + 1) ≤ 2 ^ 8 := Nat.pow_le_pow_right (by decide) hn
    have h3 : (2 : Nat) ^ 8 = 256 := by decide
    omega
theorem set_bits_from_byte_apply (dest : Nat → Nat) (a v j : Nat) :
    set_bits_from_byte dest a v j =
      if a ≤ j ∧ j < a + 8 then bit_status v (j - a) else dest j :=
  foldl_store_range (fun i => bit_status v i) dest a 8 j

theorem set_bits_from_bytes_apply (dest : Nat → Nat) (a n : Nat) (tab_byte : Nat → Nat)
    (j : Nat) :
    set_bits_from_bytes dest a n tab_byte j =
      if a ≤ j ∧ j < a + n then bit_status (tab_byte ((j - a) / 8)) ((j - a) % 8)
      else dest j :=
  foldl_store_range (fun i => bit_status (tab_byte (i / 8)) (i % 8)) dest a n j

theorem write_float_registers (x : Nat) (dest : Nat → Nat) :
    modbus_write_float x dest 0 = x % 2 ^ 16 ∧
    modbus_write_float x dest 1 = (x >>> 16) % 2 ^ 16 ∧
    ∀ j, 2 ≤ j → modbus_write_float x dest j = dest j := by
  refine ⟨?_, ?_, ?_⟩
  · simp [modbus_write_float, store]
  · simp [modbus_write_float, store]
  · intro j hj
    have h0 : j ≠ 0 := by omega
    have h1 : j ≠ 1 := by omega
    simp [modbus_write_float, store, h0, h1]

theorem join_split_words (x : Nat) (hx : x < 2 ^ 32) :
    (((x >>> 16) % 2 ^ 16) <<< 16) ||| (x % 2 ^ 16) = x := by
  rw [Nat.shiftLeft_eq, Nat.shiftRight_eq_div_pow, Nat.mul_comm,
    ← Nat.mul_add_lt_is_or (Nat.mod_lt _ (Nat.two_pow_pos 16))]
  have h16 : (2 : Nat) ^ 16 = 65536 := by decide
  have h32 : (2 : Nat) ^ 32 = 4294967296 := by decide
  rw [h16]
  rw [h32] at hx
  omega

theorem f32_value_pi_literal :
    f32_value 0x40490FD0 = 823549 / 262144 ∧
    f32_value (0x40490FD0 - 1) = 13176783 / 4194304 ∧
    f32_value (0x40490FD0 + 1) = 13176785 / 4194304 := by
  have e0 : f32_exponent 0x40490FD0 = 128 := by decide
  have s0 : f32_sign 0x40490FD0 = 0 := by decide
  have m0 : f32_fraction 0x40490FD0 = 4788176 := by decide
  have e1 : f32_exponent (0x40490FD0 - 1) = 128 := by decide
  have s1 : f32_sign (0x40490FD0 - 1) = 0 := by decide
  have m1 : f32_fraction (0x40490FD0 - 1) = 4788175 := by decide
  have e2 : f32_exponent (0x40490FD0 + 1) = 128 := by decide
  have s2 : f32_sign (0x40490FD0 + 1) = 0 := by decide
  have m2 : f32_fraction (0x40490FD0 + 1) = 4788177 := by decide
  refine ⟨?_, ?_, ?_⟩
  · unfold f32_value
    rw [e0, s0, m0]
    norm_num
  · unfold f32_value
    rw [e1, s1, m1]
    norm_num
  · unfold f32_value
    rw [e2, s2, m2]
    norm_num

theorem ceil_div_eight (q : Nat) : ⌈(q : ℚ) / 8⌉₊ = (q + 7) / 8 := by
  apply le_antisymm
  · rw [Nat.ceil_le, div_le_iff₀ (by norm_num : (0 : ℚ) < 8)]
    have h : q ≤ (q + 7) / 8 * 8 := by omega
    exact_mod_cast h
  · have h := Nat.le_ceil ((q : ℚ) / 8)
    rw [div_le_iff₀ (by norm_num : (0 : ℚ) < 8)] at h
    have h2 : q ≤ ⌈(q : ℚ) / 8⌉₊ * 8 := by exact_mod_cast h
    omega

/-! ## The claims -/

/-- C1: every error constant of modbus.h has the numeric value the
specification's taxonomy lists for it, and each protocol exception constant is
the negation of a one-byte exception code (the hexadecimal literal the macro
negates: 0x01..0x08, 0x0A, 0x0B). -/
theorem error_constants_values :
    (ILLEGAL_FUNCTION = -1 ∧ ILLEGAL_DATA_ADDRESS = -2 ∧ ILLEGAL_DATA_VALUE = -3 ∧
      SLAVE_DEVICE_FAILURE = -4 ∧ ACKNOWLEDGE = -5 ∧ SLAVE_DEVICE_BUSY = -6 ∧
      NEGATIVE_ACKNOWLEDGE = -7 ∧ MEMORY_PARITY_ERROR = -8 ∧
      GATEWAY_PROBLEM_PATH = -10 ∧ GATEWAY_PROBLEM_TARGET = -11) ∧
    (INVALID_DATA = -16 ∧ INVALID_CRC = -17 ∧ INVALID_EXCEPTION_CODE = -18) ∧
    (SELECT_TIMEOUT = -19 ∧ SELECT_FAILURE = -20 ∧ SOCKET_FAILURE = -21 ∧
      CONNECTION_CLOSED = -22 ∧ MB_EXCEPTION = -23) ∧
    (∀ e : ErrorName, e.errorClass = ErrorClass.protocol →
      ∃ code : Nat, 1 ≤ code ∧ code ≤ 0xFF ∧ e.value = -(code : Int)) ∧
    ([ILLEGAL_FUNCTION, ILLEGAL_DATA_ADDRESS, ILLEGAL_DATA_VALUE,
      SLAVE_DEVICE_FAILURE, ACKNOWLEDGE, SLAVE_DEVICE_BUSY, NEGATIVE_ACKNOWLEDGE,
      MEMORY_PARITY_ERROR, GATEWAY_PROBLEM_PATH, GATEWAY_PROBLEM_TARGET] =
      ([0x01, 0x02, 0x03, 0x04, 0x05, 0x06, 0x07, 0x08, 0x0A, 0x0B] : List Nat).map
        (fun code => -(code : Int))) := by
  refine ⟨by decide, by decide, by decide, ?_, by decide⟩
  intro e he
  refine ⟨e.value.natAbs, ?_⟩
  cases e <;> first | (exact absurd he (by decide)) | decide

/-- C2: every error constant of modbus.h is strictly negative, hence differs
from every valid count (a value at or above zero); the protocol exceptions lie
in -11..-1, the local/framing errors in -18..-16 and the transport errors in
-23..-19, so constants of different classes never share a value; and two
differently named constants share a value exactly when they form one of the
alias pairs SLAVE_DEVICE_FAILURE/SERVER_FAILURE (-4) and
SLAVE_DEVICE_BUSY/SERVER_BUSY (-6). -/
theorem error_constants_negative_and_distinct :
    (∀ e : ErrorName, e.value < 0) ∧
    (∀ (e : ErrorName) (count : Int), 0 ≤ count → e.value ≠ count) ∧
    (∀ e : ErrorName, e.errorClass = ErrorClass.protocol →
      -11 ≤ e.value ∧ e.value ≤ -1) ∧
    (∀ e : ErrorName, e.errorClass = ErrorClass.localFraming →
      -18 ≤ e.value ∧ e.value ≤ -16) ∧
    (∀ e : ErrorName, e.errorClass = ErrorClass.transport →
      -23 ≤ e.value ∧ e.value ≤ -19) ∧
    ((-23 : Int) ≤ -19 ∧ (-19 : Int) < -18 ∧ (-18 : Int) ≤ -16 ∧
      (-16 : Int) < -11 ∧ (-11 : Int) ≤ -1) ∧
    (∀ a b : ErrorName, a.errorClass ≠ b.errorClass → a.value ≠ b.value) ∧
    (∀ a b : ErrorName, a ≠ b → (a.value = b.value ↔ a.isAliasPair b = true)) ∧
    (SLAVE_DEVICE_FAILURE = -4 ∧ SERVER_FAILURE = -4) ∧
    (SLAVE_DEVICE_BUSY = -6 ∧ SERVER_BUSY = -6) := by
  have hneg : ∀ e : ErrorName, e.value < 0 := by
    intro e; cases e <;> decide
  refine ⟨hneg, ?_, ?_, ?_, ?_, by decide, ?_, ?_, by decide, by decide⟩
  · intro e count hcount hEq
    have := hneg e
    omega
  · intro e; cases e <;> decide
  · intro e; cases e <;> decide
  · intro e; cases e <;> decide
  · intro a b; cases a <;> cases b <;> decide
  · intro a b; cases a <;> cases b <;> decide

/-- C3: for every finite, non-NaN single-precision pattern x, writing x with
modbus_write_float and reading it back with modbus_read_float gives x bit for
bit; the two registers written satisfy x = (dest[1] << 16) | dest[0], with
dest[0] the low word and dest[1] the high word, and no other register changes.
For 3.14159f, whose pattern is 0x40490FD0 (finite, and nearer to 3.14159 than
the two adjacent singles), the registers are dest[0] = 0x0FD0 and
dest[1] = 0x4049. -/
theorem float_round_trip :
    (∀ (x : Nat) (dest : Nat → Nat), x < 2 ^ 32 → f32_is_finite x = true →
      modbus_read_float (modbus_write_float x dest) = x ∧
      (modbus_write_float x dest 1 <<< 16) ||| modbus_write_float x dest 0 = x ∧
      modbus_write_float x dest 0 = x % 2 ^ 16 ∧
      modbus_write_float x dest 1 = x / 2 ^ 16 ∧
      modbus_write_float x dest 0 < 2 ^ 16 ∧
      modbus_write_float x dest 1 < 2 ^ 16 ∧
      ∀ j, 2 ≤ j → modbus_write_float x dest j = dest j) ∧
    (f32_is_finite 0x40490FD0 = true ∧
      |f32_value 0x40490FD0 - 314159 / 100000| <
        |f32_value (0x40490FD0 - 1) - 314159 / 100000| ∧
      |f32_value 0x40490FD0 - 314159 / 100000| <
        |f32_value (0x40490FD0 + 1) - 314159 / 100000|) ∧
    (∀ dest : Nat → Nat,
      modbus_write_float 0x40490FD0 dest 0 = 0x0FD0 ∧
      modbus_write_float 0x40490FD0 dest 1 = 0x4049 ∧
      (0x4049 <<< 16) ||| 0x0FD0 = 0x40490FD0 ∧
      modbus_read_float (modbus_write_float 0x40490FD0 dest) = 0x40490FD0) := by
  have hround : ∀ (x : Nat) (dest : Nat → Nat), x < 2 ^ 32 →
      modbus_read_float (modbus_write_float x dest) = x := by
    intro x dest hx
    obtain ⟨h0, h1, _⟩ := write_float_registers x dest
    unfold modbus_read_float
    rw [h0, h1, join_split_words x hx]
    exact Nat.mod_eq_of_lt hx
  refine ⟨?_, ?_, ?_⟩
  · intro x dest hx _
    obtain ⟨h0, h1, hrest⟩ := write_float_registers x dest
    refine ⟨hround x dest hx, ?_, h0, ?_, ?_, ?_, hrest⟩
    · rw [h0, h1, join_split_words x hx]
    · rw [h1, Nat.shiftRight_eq_div_pow]
      apply Nat.mod_eq_of_lt
      have h16 : (2 : Nat) ^ 16 = 65536 := by decide
      have h32 : (2 : Nat) ^ 32 = 4294967296 := by decide
      rw [h16]
      rw [h32] at hx
      omega
    · rw [h0]; exact Nat.mod_lt _ (Nat.two_pow_pos 16)
    · rw [h1]; exact Nat.mod_lt _ (Nat.two_pow_pos 16)
  · obtain ⟨v0, v1, v2⟩ := f32_value_pi_literal
    refine ⟨by decide, ?_, ?_⟩
    · rw [v0, v1]; norm_num [abs_lt, abs_of_pos, abs_of_neg]
    · rw [v0, v2]; norm_num [abs_lt, abs_of_pos, abs_of_neg]
  · intro dest
    obtain ⟨h0, h1, _⟩ := write_float_registers 0x40490FD0 dest
    refine ⟨?_, ?_, by decide, hround _ dest (by decide)⟩
    · rw [h0]; decide
    · rw [h1]; decide

/-- C4: for every byte v and address a, after set_bits_from_byte(dest, a, v)
the call get_byte_from_bits(dest, a, 8) returns v, cell dest[a + i] holding
TRUE when bit i of v (bit 0 the LSB) is set and FALSE otherwise; and for
nb_bits in 1..7 get_byte_from_bits(dest, a, nb_bits) returns v with bits
nb_bits..7 cleared, that is v mod 2^nb_bits. -/
theorem set_bits_from_byte_round_trip (dest : Nat → Nat) (a v : Nat) (hv : v < 256) :
    get_byte_from_bits (set_bits_from_byte dest a v) a 8 = v ∧
    (∀ i, i < 8 →
      set_bits_from_byte dest a v (a + i) = if v.testBit i then TRUE else FALSE) ∧
    (∀ nb_bits, 1 ≤ nb_bits → nb_bits ≤ 7 →
      get_byte_from_bits (set_bits_from_byte dest a v) a nb_bits = v % 2 ^ nb_bits ∧
      ∀ j, (get_byte_from_bits (set_bits_from_byte dest a v) a nb_bits).testBit j =
        (decide (j < nb_bits) && v.testBit j)) := by
  have hcell : ∀ i, i < 8 → set_bits_from_byte dest a v (a + i) = bit_status v i := by
    intro i hi
    rw [set_bits_from_byte_apply, if_pos (by omega), Nat.add_sub_cancel_left]
  have hget : ∀ n, n ≤ 8 →
      get_byte_from_bits (set_bits_from_byte dest a v) a n = v % 2 ^ n := by
    intro n hn
    apply get_byte_from_bits_of_bits _ _ _ _ hn
    intro i hi
    rw [hcell i (by omega), bit_status_eq_div_mod]
  refine ⟨?_, ?_, ?_⟩
  · rw [hget 8 (le_refl 8)]
    exact Nat.mod_eq_of_lt hv
  · intro i hi
    rw [hcell i hi, bit_status_eq_testBit]
    rfl
  · intro nb_bits _ hle
    have h := hget nb_bits (by omega)
    refine ⟨h, ?_⟩
    intro j
    rw [h, Nat.testBit_mod_two_pow]

/-- Witness for C4: the byte 0xA5 written at address 3 of an all-zero table. -/
theorem set_bits_from_byte_round_trip_witness :
    0xA5 < 256 ∧
    get_byte_from_bits (set_bits_from_byte (fun _ => 0) 3 0xA5) 3 8 = 0xA5 :=
  ⟨by decide, (set_bits_from_byte_round_trip (fun _ => 0) 3 0xA5 (by decide)).1⟩

/-- C5: set_bits_from_bytes(dest, a, nb_bits, tab_byte) leaves every cell with
index below a or at/after a + nb_bits unchanged, and makes each cell
dest[a + i] with i < nb_bits hold bit (i mod 8) of tab_byte[i / 8], as ON or
OFF. -/
theorem set_bits_from_bytes_frame (dest : Nat → Nat) (a nb_bits : Nat)
    (tab_byte : Nat → Nat) :
    (∀ j, j < a ∨ a + nb_bits ≤ j →
      set_bits_from_bytes dest a nb_bits tab_byte j = dest j) ∧
    (∀ i, i < nb_bits →
      set_bits_from_bytes dest a nb_bits tab_byte (a + i) =
        (if (tab_byte (i / 8)).testBit (i % 8) then ON else OFF) ∧
      set_bits_from_bytes dest a nb_bits tab_byte (a + i) =
        tab_byte (i / 8) / 2 ^ (i % 8) % 2) := by
  constructor
  · intro j hj
    rw [set_bits_from_bytes_apply, if_neg (by omega)]
  · intro i hi
    have h : set_bits_from_bytes dest a nb_bits tab_byte (a + i) =
        bit_status (tab_byte (i / 8)) (i % 8) := by
      rw [set_bits_from_bytes_apply, if_pos (by omega), Nat.add_sub_cancel_left]
    exact ⟨h.trans (bit_status_eq_testBit _ _), h.trans (bit_status_eq_div_mod _ _)⟩

/-- C6: the maximum ADU sizes are the framing overhead plus the maximum PDU:
MAX_ADU_LENGTH_RTU = HEADER_LENGTH_RTU + MAX_PDU_LENGTH + CHECKSUM_LENGTH_RTU
= 1 + 253 + 2 = 256 and MAX_ADU_LENGTH_TCP = HEADER_LENGTH_TCP +
MAX_PDU_LENGTH + CHECKSUM_LENGTH_TCP = 7 + 253 + 0 = 260, with
MAX_PDU_LENGTH = 253. -/
theorem max_adu_lengths :
    MAX_PDU_LENGTH = 253 ∧
    (HEADER_LENGTH_RTU = 1 ∧ CHECKSUM_LENGTH_RTU = 2) ∧
    (HEADER_LENGTH_TCP = 7 ∧ CHECKSUM_LENGTH_TCP = 0) ∧
    MAX_ADU_LENGTH_RTU = HEADER_LENGTH_RTU + MAX_PDU_LENGTH + CHECKSUM_LENGTH_RTU ∧
    MAX_ADU_LENGTH_RTU = 256 ∧
    MAX_ADU_LENGTH_TCP = HEADER_LENGTH_TCP + MAX_PDU_LENGTH + CHECKSUM_LENGTH_TCP ∧
    MAX_ADU_LENGTH_TCP = 260 := by
  decide

/-- C7: with a slave other than the broadcast address, read_coil_status and
read_input_status pass nb = 2000 (MAX_STATUS) on to the exchange and return
its error or the count 2000, and return INVALID_DATA (-16) for every nb from
2001 up whatever the slave and the exchange; read_holding_registers and
read_input_registers do the same with 125 (MAX_REGISTERS) and 126. For slave
0x11 and an exchange that succeeds, the four calls return 2000, 2000, 125 and
125 at the limit and -16 one above it. -/
theorem read_quantity_limits :
    (INVALID_DATA = -16 ∧ MAX_STATUS = 2000 ∧ MAX_REGISTERS = 125) ∧
    (∀ (slave : Nat) (start : Int) (exchange : Nat → Int → Int → Int),
      slave ≠ MODBUS_BROADCAST_ADDRESS →
      (read_coil_status slave start 2000 exchange =
        if exchange FC_READ_COIL_STATUS start 2000 < 0
        then exchange FC_READ_COIL_STATUS start 2000 else 2000) ∧
      (read_input_status slave start 2000 exchange =
        if exchange FC_READ_INPUT_STATUS start 2000 < 0
        then exchange FC_READ_INPUT_STATUS start 2000 else 2000) ∧
      (read_holding_registers slave start 125 exchange =
        if exchange FC_READ_HOLDING_REGISTERS start 125 < 0
        then exchange FC_READ_HOLDING_REGISTERS start 125 else 125) ∧
      (read_input_registers slave start 125 exchange =
        if exchange FC_READ_INPUT_REGISTERS start 125 < 0
        then exchange FC_READ_INPUT_REGISTERS start 125 else 125)) ∧
    (∀ (slave : Nat) (start nb : Int) (exchange : Nat → Int → Int → Int),
      2001 ≤ nb →
      read_coil_status slave start nb exchange = INVALID_DATA ∧
      read_input_status slave start nb exchange = INVALID_DATA) ∧
    (∀ (slave : Nat) (start nb : Int) (exchange : Nat → Int → Int → Int),
      126 ≤ nb →
      read_holding_registers slave start nb exchange = INVALID_DATA ∧
      read_input_registers slave start nb exchange = INVALID_DATA) ∧
    (read_coil_status 0x11 0 2000 (fun _ _ _ => 0) = 2000 ∧
      read_coil_status 0x11 0 2001 (fun _ _ _ => 0) = -16 ∧
      read_input_status 0x11 0 2000 (fun _ _ _ => 0) = 2000 ∧
      read_input_status 0x11 0 2001 (fun _ _ _ => 0) = -16 ∧
      read_holding_registers 0x11 0 125 (fun _ _ _ => 0) = 125 ∧
      read_holding_registers 0x11 0 126 (fun _ _ _ => 0) = -16 ∧
      read_input_registers 0x11 0 125 (fun _ _ _ => 0) = 125 ∧
      read_input_registers 0x11 0 126 (fun _ _ _ => 0) = -16) := by
  have hreject : ∀ (max_nb slave : Nat) (nb exchange : Int), (max_nb : Int) < nb →
      client_read max_nb slave nb exchange = INVALID_DATA := by
    intro max_nb slave nb exchange h
    unfold client_read
    by_cases hs : slave = MODBUS_BROADCAST_ADDRESS
    · rw [if_pos hs]
    · rw [if_neg hs, if_pos (Or.inr h)]
  have haccept : ∀ (max_nb slave : Nat) (exchange : Int),
      slave ≠ MODBUS_BROADCAST_ADDRESS → 1 ≤ max_nb →
      client_read max_nb slave max_nb exchange =
        if exchange < 0 then exchange else max_nb := by
    intro max_nb slave exchange hs hpos
    unfold client_read
    have hin : ¬ ((max_nb : Int) < 1 ∨ (max_nb : Int) < max_nb) := by omega
    rw [if_neg hs, if_neg hin]
  refine ⟨by decide, ?_, ?_, ?_, by decide⟩
  · intro slave start exchange hs
    exact ⟨haccept MAX_STATUS slave _ hs (by decide),
      haccept MAX_STATUS slave _ hs (by decide),
      haccept MAX_REGISTERS slave _ hs (by decide),
      haccept MAX_REGISTERS slave _ hs (by decide)⟩
  · intro slave start nb exchange h
    have h2 : ((MAX_STATUS : Nat) : Int) < nb := by
      have : ((MAX_STATUS : Nat) : Int) = 2000 := by decide
      omega
    exact ⟨hreject MAX_STATUS slave nb _ h2, hreject MAX_STATUS slave nb _ h2⟩
  · intro slave start nb exchange h
    have h2 : ((MAX_REGISTERS : Nat) : Int) < nb := by
      have : ((MAX_REGISTERS : Nat) : Int) = 125 := by decide
      omega
    exact ⟨hreject MAX_REGISTERS slave nb _ h2, hreject MAX_REGISTERS slave nb _ h2⟩

/-- C8: the ten function codes of modbus.h have the values the specification
lists, are pairwise distinct and have bit 7 clear; so for each of them the
exception byte fc | 0x80 is not a function code, has bit 7 set, and gives fc
back as (fc | 0x80) & 0x7F. Consequently, of the two bytes that can answer a
query with code fc (fc itself or fc | 0x80), the test of bit 7 singles out the
exception response, and no byte with bit 7 set is a function code. -/
theorem function_codes_and_exception_bit :
    (FC_READ_COIL_STATUS = 0x01 ∧ FC_READ_INPUT_STATUS = 0x02 ∧
      FC_READ_HOLDING_REGISTERS = 0x03 ∧ FC_READ_INPUT_REGISTERS = 0x04 ∧
      FC_FORCE_SINGLE_COIL = 0x05 ∧ FC_PRESET_SINGLE_REGISTER = 0x06 ∧
      FC_READ_EXCEPTION_STATUS = 0x07 ∧ FC_FORCE_MULTIPLE_COILS = 0x0F ∧
      FC_PRESET_MULTIPLE_REGISTERS = 0x10 ∧ FC_REPORT_SLAVE_ID = 0x11) ∧
    function_codes.length = 10 ∧
    function_codes.Nodup ∧
    (∀ fc ∈ function_codes, fc &&& 0x80 = 0) ∧
    (∀ fc ∈ function_codes,
      (fc ||| 0x80) ∉ function_codes ∧ (fc ||| 0x80) &&& 0x80 = 0x80 ∧
      (fc ||| 0x80) &&& 0x7F = fc ∧ (fc ||| 0x80) < 256) ∧
    (∀ fc ∈ function_codes, ∀ byte : Nat, byte = fc ∨ byte = fc ||| 0x80 →
      (byte &&& 0x80 ≠ 0 ↔ byte = fc ||| 0x80)) ∧
    (∀ byte : Nat, byte &&& 0x80 ≠ 0 → byte ∉ function_codes) := by
  have hclear : ∀ fc ∈ function_codes, fc &&& 0x80 = 0 := by decide
  have hexc : ∀ fc ∈ function_codes,
      (fc ||| 0x80) ∉ function_codes ∧ (fc ||| 0x80) &&& 0x80 = 0x80 ∧
      (fc ||| 0x80) &&& 0x7F = fc ∧ (fc ||| 0x80) < 256 := by decide
  refine ⟨by decide, by decide, by decide, hclear, hexc, ?_, ?_⟩
  · intro fc hfc byte hbyte
    rcases hbyte with h | h
    · subst h
      constructor
      · intro hne; exact absurd (hclear _ hfc) hne
      · intro hEq
        have := (hexc _ hfc).1
        rw [← hEq] at this
        exact absurd hfc this
    · subst h
      constructor
      · intro _; rfl
      · intro _
        rw [(hexc _ hfc).2.1]
        decide
  · intro byte hne hmem
    exact hne (hclear byte hmem)

/-- C9: an RTU exception response is EXCEPTION_RESPONSE_LENGTH_RTU = 5 bytes
long: the slave byte (HEADER_LENGTH_RTU = 1), the two-byte exception PDU
[fc | 0x80][code] and the CRC (CHECKSUM_LENGTH_RTU = 2); the response of slave
0x11 to function code 0x09 with code 1 is 11 89 01 followed by the two CRC
bytes, low byte first. -/
theorem rtu_exception_response_length :
    EXCEPTION_RESPONSE_LENGTH_RTU = 5 ∧
    (HEADER_LENGTH_RTU = 1 ∧ CHECKSUM_LENGTH_RTU = 2) ∧
    EXCEPTION_RESPONSE_LENGTH_RTU = HEADER_LENGTH_RTU + 2 + CHECKSUM_LENGTH_RTU ∧
    (∀ fc code : Nat, (exception_pdu fc code).length = 2) ∧
    (∀ slave fc code : Nat,
      (rtu_exception_response slave fc code).length = EXCEPTION_RESPONSE_LENGTH_RTU ∧
      (rtu_exception_response slave fc code).take 3 = [slave, fc ||| 0x80, code]) ∧
    rtu_exception_response 0x11 0x09 1 =
      [0x11, 0x89, 0x01, crc16 [0x11, 0x89, 0x01] % 256, crc16 [0x11, 0x89, 0x01] / 256] ∧
    crc16 [0x11, 0x89, 0x01] % 256 = 0x87 ∧ crc16 [0x11, 0x89, 0x01] / 256 = 0x95 := by
  refine ⟨by decide, by decide, by decide, fun _ _ => rfl, fun _ _ _ => ⟨rfl, rfl⟩,
    by decide, by decide, by decide⟩

/-- C10: MIN_QUERY_LENGTH is the larger of the two query sizes made of header,
function (1), address (2), number (2) and checksum: 7 + 5 + 0 = 12 for TCP and
1 + 5 + 2 = 8 for RTU; it exceeds the smallest frame, the RTU report-slave-id
query of HEADER_LENGTH_RTU + 1 + CHECKSUM_LENGTH_RTU = 4 bytes. -/
theorem min_query_length_is_maximum :
    MIN_QUERY_LENGTH =
      max (HEADER_LENGTH_TCP + (1 + 2 + 2) + CHECKSUM_LENGTH_TCP)
        (HEADER_LENGTH_RTU + (1 + 2 + 2) + CHECKSUM_LENGTH_RTU) ∧
    HEADER_LENGTH_TCP + (1 + 2 + 2) + CHECKSUM_LENGTH_TCP = 12 ∧
    HEADER_LENGTH_RTU + (1 + 2 + 2) + CHECKSUM_LENGTH_RTU = 8 ∧
    PRESET_QUERY_LENGTH_TCP + CHECKSUM_LENGTH_TCP = 12 ∧
    PRESET_QUERY_LENGTH_RTU + CHECKSUM_LENGTH_RTU = 8 ∧
    MIN_QUERY_LENGTH = 12 ∧
    HEADER_LENGTH_RTU + 1 + CHECKSUM_LENGTH_RTU = 4 ∧
    HEADER_LENGTH_RTU + 1 + CHECKSUM_LENGTH_RTU < MIN_QUERY_LENGTH := by
  decide

/-- C11: the quantity limits keep every permitted read response inside the
frame limits. For 1 <= q <= MAX_STATUS the coil/discrete-input response PDU,
2 + ceil(q / 8) bytes, is at most MAX_PDU_LENGTH; for 1 <= q <= MAX_REGISTERS
the register response PDU, 2 + 2*q bytes, is at most MAX_PDU_LENGTH; so the
response ADU (header + PDU + checksum) is at most MAX_ADU_LENGTH_RTU on RTU,
MAX_ADU_LENGTH_TCP on TCP, and MAX_MESSAGE_LENGTH on both. The register limit
is tight: q = MAX_REGISTERS + 1 = 126 gives a 254-byte PDU, above
MAX_PDU_LENGTH. -/
theorem read_responses_fit_frame_limits :
    (MAX_STATUS = 2000 ∧ MAX_REGISTERS = 125 ∧ MAX_PDU_LENGTH = 253 ∧
      MAX_ADU_LENGTH_RTU = 256 ∧ MAX_ADU_LENGTH_TCP = 260 ∧
      MAX_MESSAGE_LENGTH = 260) ∧
    (∀ q : Nat, 1 ≤ q → q ≤ MAX_STATUS →
      ⌈(q : ℚ) / 8⌉₊ = (q + 7) / 8 ∧
      2 + ⌈(q : ℚ) / 8⌉₊ ≤ MAX_PDU_LENGTH ∧
      HEADER_LENGTH_RTU + (2 + ⌈(q : ℚ) / 8⌉₊) + CHECKSUM_LENGTH_RTU ≤ MAX_ADU_LENGTH_RTU ∧
      HEADER_LENGTH_TCP + (2 + ⌈(q : ℚ) / 8⌉₊) + CHECKSUM_LENGTH_TCP ≤ MAX_ADU_LENGTH_TCP ∧
      HEADER_LENGTH_RTU + (2 + ⌈(q : ℚ) / 8⌉₊) + CHECKSUM_LENGTH_RTU ≤ MAX_MESSAGE_LENGTH ∧
      HEADER_LENGTH_TCP + (2 + ⌈(q : ℚ) / 8⌉₊) + CHECKSUM_LENGTH_TCP ≤ MAX_MESSAGE_LENGTH) ∧
    (∀ q : Nat, 1 ≤ q → q ≤ MAX_REGISTERS →
      2 + 2 * q ≤ MAX_PDU_LENGTH ∧
      HEADER_LENGTH_RTU + (2 + 2 * q) + CHECKSUM_LENGTH_RTU ≤ MAX_ADU_LENGTH_RTU ∧
      HEADER_LENGTH_TCP + (2 + 2 * q) + CHECKSUM_LENGTH_TCP ≤ MAX_ADU_LENGTH_TCP ∧
      HEADER_LENGTH_RTU + (2 + 2 * q) + CHECKSUM_LENGTH_RTU ≤ MAX_MESSAGE_LENGTH ∧
      HEADER_LENGTH_TCP + (2 + 2 * q) + CHECKSUM_LENGTH_TCP ≤ MAX_MESSAGE_LENGTH) ∧
    (2 + (MAX_STATUS + 7) / 8 = 252 ∧ 2 + 2 * MAX_REGISTERS = 252) ∧
    (MAX_REGISTERS + 1 = 126 ∧ 2 + 2 * (MAX_REGISTERS + 1) = 254 ∧
      MAX_PDU_LENGTH < 2 + 2 * (MAX_REGISTERS + 1)) := by
  refine ⟨by decide, ?_, ?_, by decide, by decide⟩
  · intro q _ hq
    have hceil := ceil_div_eight q
    rw [hceil]
    simp only [MAX_STATUS, MAX_PDU_LENGTH, MAX_ADU_LENGTH_RTU, MAX_ADU_LENGTH_TCP,
      MAX_MESSAGE_LENGTH, HEADER_LENGTH_RTU, HEADER_LENGTH_TCP, CHECKSUM_LENGTH_RTU,
      CHECKSUM_LENGTH_TCP] at hq ⊢
    refine ⟨trivial, ?_, ?_, ?_, ?_, ?_⟩ <;> omega
  · intro q _ hq
    simp only [MAX_REGISTERS, MAX_PDU_LENGTH, MAX_ADU_LENGTH_RTU, MAX_ADU_LENGTH_TCP,
      MAX_MESSAGE_LENGTH, HEADER_LENGTH_RTU, HEADER_LENGTH_TCP, CHECKSUM_LENGTH_RTU,
      CHECKSUM_LENGTH_TCP] at hq ⊢
    refine ⟨?_, ?_, ?_, ?_, ?_⟩ <;> omega

end Modbus
